import Mathlib

/-!
Verification development for the claude-watchdog (llm-whip) repository.

The definitions below are a shallow embedding of the pattern-matching,
baseline-diffing, debouncing and reaction-dispatch pipeline implemented in
`src/file-watcher.ts` (the variant with baseline and grep support, also found
in `src/baseline-tracker.ts` companions) and `src/baseline-tracker.ts`.

Modelling conventions:
* JavaScript strings are Lean `String`s; `Map`s are association lists;
  `Date.now()` is an explicit `now : Nat` argument (milliseconds).
* The JavaScript regular-expression engine is abstracted as a `RegexEngine`:
  `execAll pat line` is the list of (index, matched text) pairs produced by
  the source's `while ((match = regex.exec(line)) !== null)` loop over a
  regex built with flags `gmi`, and `test` is `RegExp.prototype.test` with
  flag `i`.  A concrete instance (`literalEngine`) implements the
  case-insensitive non-overlapping semantics for literal patterns.
* The md5 hex digest in `BaselineTracker.hashContent` is modelled by an
  injective stand-in: the trimmed content itself.  The `.trim()` call is
  taken from the source; only the digest function is abstracted.
-/

namespace Watchdog

/-- Reaction kinds, from `src/types.ts` (`ReactionType`). -/
inductive ReactionType where
  | sound
  | interrupt
  | alert
  | webhook
deriving Repr, DecidableEq

/-- A pattern rule, from `src/types.ts` (`Pattern`).  Optional fields are
`Option`s; defaulting happens at match time exactly where the source applies
`||` fallbacks. -/
structure Pattern where
  name : String
  pattern : String
  severity : Option String
  reactions : Option (List ReactionType)
  message : Option String
  interruptMessage : Option String
deriving Repr, DecidableEq

/-- The `debounce` configuration field of `Config`:
`number | false | undefined` in `src/types.ts`. -/
inductive DebounceSetting where
  | ms (n : Nat)
  | off
  | unset
deriving Repr, DecidableEq

/-- A JavaScript reaction-config field value: `true`, `false`, an object
(with an optional string payload such as `command` or `format`), or absent. -/
inductive JsSetting where
  | tru
  | fls
  | obj (payload : Option String)
  | undef
deriving Repr, DecidableEq

/-- Global reaction configuration, from `src/types.ts` (`ReactionConfig`). -/
structure ReactionConfig where
  sound : JsSetting
  interrupt : JsSetting
  alert : JsSetting
deriving Repr, DecidableEq

/-- The parts of `Config` (src/types.ts) the pipeline reads. -/
structure Config where
  patterns : List Pattern
  reactions : Option ReactionConfig
  debounce : DebounceSetting
deriving Repr, DecidableEq

/-- A baseline entry, from `src/baseline-tracker.ts` (`BaselineEntry`). -/
structure BaselineEntry where
  file : String
  line : Nat
  pattern : String
  contentHash : String
deriving Repr, DecidableEq

/-- A baseline, from `src/baseline-tracker.ts` (`Baseline`). -/
structure Baseline where
  timestamp : Nat
  entries : List BaselineEntry
deriving Repr, DecidableEq

/-- JavaScript `String.prototype.trim`: strip leading and trailing
whitespace.  (Implemented on the character list so that it is structurally
recursive; the core `String.trim` is extensionally the same function.) -/
def jsTrim (s : String) : String :=
  String.mk (((s.toList.dropWhile Char.isWhitespace).reverse.dropWhile
    Char.isWhitespace).reverse)

/-- JavaScript `content.split("\n")`. -/
def splitNlAux : List Char → List Char → List String
  | [], acc => [String.mk acc.reverse]
  | c :: cs, acc =>
    if c == '\n' then String.mk acc.reverse :: splitNlAux cs []
    else splitNlAux cs (c :: acc)

/-- `content.split("\n")`: the list of lines, keeping empty segments, as the
JavaScript split does. -/
def jsSplitNl (s : String) : List String :=
  splitNlAux s.toList []

/-- `BaselineTracker.hashContent`: `md5(content.trim())` in hex.  The digest
is modelled injectively by the trimmed content itself; the `.trim()` is the
source's. -/
def hashContent (content : String) : String :=
  jsTrim content

/-- `BaselineTracker.isNewPattern` from `src/baseline-tracker.ts`: an
occurrence is NOT new iff some entry matches on all four fields. -/
def isNewPattern (file : String) (line : Nat) (pat : String) (fullLine : String)
    (b : Baseline) : Bool :=
  let contentHash := hashContent fullLine
  !(b.entries.any fun e =>
    e.file == file && e.line == line && e.pattern == pat && e.contentHash == contentHash)

/-- `BaselineTracker.createBaselineEntry`. -/
def createBaselineEntry (file : String) (line : Nat) (pat : String)
    (fullLine : String) : BaselineEntry :=
  ⟨file, line, pat, hashContent fullLine⟩

/-- The string key `file:line:pattern:contentHash` used by
`BaselineTracker.updateBaseline` to compare entries. -/
def entryKeyStr (e : BaselineEntry) : String :=
  e.file ++ ":" ++ toString e.line ++ ":" ++ e.pattern ++ ":" ++ e.contentHash

/-- `BaselineTracker.createBaseline`: replaces the stored baseline with a
fresh one timestamped now. -/
def createBaseline (entries : List BaselineEntry) (now : Nat) : Baseline :=
  ⟨now, entries⟩

/-- `BaselineTracker.updateBaseline` acting on the static store
(`BaselineTracker.baseline : Baseline | null`).  With no stored baseline it
creates one from the new entries; otherwise it appends the entries whose
string key is not already present and, if any were appended, refreshes the
timestamp. -/
def updateBaseline (store : Option Baseline) (newEntries : List BaselineEntry)
    (now : Nat) : Option Baseline :=
  match store with
  | none => some (createBaseline newEntries now)
  | some b =>
    let existingKeys := b.entries.map entryKeyStr
    let uniqueNewEntries :=
      newEntries.filter fun e => !(existingKeys.any fun k => k == entryKeyStr e)
    if uniqueNewEntries.length > 0 then
      some ⟨now, b.entries ++ uniqueNewEntries⟩
    else
      some b

/-- The `isNew` computation in `FileWatcher.checkPatterns`:
`!this.baseline || BaselineTracker.isNewPattern(...)`. -/
def classifyIsNew (baseline : Option Baseline) (file : String) (line : Nat)
    (pat : String) (fullLine : String) : Bool :=
  match baseline with
  | none => true
  | some b => isNewPattern file line pat fullLine b

/-- Abstraction of the JavaScript regular-expression engine.  `execAll pat
line` is the (index, matched text) list produced by the source's
`while ((match = regex.exec(line)) !== null)` loop over `new RegExp(pat,
"gmi")`; `test pat s` is `new RegExp(pat, "i").test(s)`. -/
structure RegexEngine where
  execAll : String → String → List (Nat × String)
  test : String → String → Bool

/-- Case-insensitive prefix test on character lists (models the `i` flag for
literal patterns). -/
def charsMatchCI : List Char → List Char → Bool
  | [], _ => true
  | _ :: _, [] => false
  | p :: ps, c :: cs => (p.toLower == c.toLower) && charsMatchCI ps cs

/-- Left-to-right non-overlapping scan for a literal pattern, advancing past
each match like `lastIndex` does in a `g`-flag exec loop.  `fuel` bounds the
recursion by the input length. -/
def literalOccsAux (pat : List Char) : Nat → List Char → Nat → List (Nat × String)
  | 0, _, _ => []
  | _ + 1, [], _ => []
  | fuel + 1, c :: cs, i =>
    if charsMatchCI pat (c :: cs) then
      (i, String.mk ((c :: cs).take pat.length))
        :: literalOccsAux pat fuel ((c :: cs).drop (max 1 pat.length)) (i + max 1 pat.length)
    else
      literalOccsAux pat fuel cs (i + 1)

/-- Concrete engine semantics for literal (regex-metacharacter-free)
patterns: case-insensitive, non-overlapping, leftmost-first — the behaviour
of the source's exec loop on such patterns.  The source's loop never
terminates on zero-width matches, so the empty pattern is given no
occurrences here. -/
def literalExecAll (pat line : String) : List (Nat × String) :=
  if pat.isEmpty then []
  else literalOccsAux pat.toList (line.length + 1) line.toList 0

/-- `RegExp.prototype.test` for literal patterns (flag `i`). -/
def literalTest (pat s : String) : Bool :=
  !(literalExecAll pat s).isEmpty

/-- The concrete literal-pattern engine used to evaluate examples. -/
def literalEngine : RegexEngine :=
  ⟨literalExecAll, literalTest⟩

/-- A match record, from `src/types.ts` (`MatchInfo`).  The source field
`match` is called `matched` (`match` is a Lean keyword);
`patternInterruptMessage` models the `patternConfig.interruptMessage`
attached to the object by `checkPatterns` for the interrupt reaction. -/
structure MatchInfo where
  pattern : String
  severity : String
  matched : String
  index : Nat
  reactions : List ReactionType
  message : String
  file : String
  line : String
  context : String
  timestamp : Nat
  fullLine : String
  patternInterruptMessage : Option String
deriving Repr, DecidableEq

/-- `FileWatcher.getContext`: a trimmed fixed-width window of the line around
the match (`contextSize` is 50 at every call site). -/
def getContext (text : String) (index : Nat) (contextSize : Nat) : String :=
  let start := index - contextSize
  let stop := min text.length (index + contextSize)
  jsTrim ((text.drop start).take (stop - start))

/-- Construction of the `matchInfo` object inside `FileWatcher.checkPatterns`,
including the `|| "medium"`, `|| ["alert"]` and message defaulting and the
NEW prefix. -/
def mkMatchInfo (p : Pattern) (isNew : Bool) (line relativePath : String)
    (lineNumber idx : Nat) (matched : String) (now : Nat) : MatchInfo :=
  let baseMessage := p.message.getD (p.name ++ " detected")
  { pattern := p.name
  , severity := p.severity.getD "medium"
  , matched := matched
  , index := idx
  , reactions := p.reactions.getD [ReactionType.alert]
  , message := if isNew then "🆕 NEW " ++ baseMessage else baseMessage
  , file := relativePath
  , line := toString lineNumber
  , context := getContext line idx 50
  , timestamp := now
  , fullLine := jsTrim line
  , patternInterruptMessage := p.interruptMessage }

/-- Lookup in the `recentMatches : Map<string, number>`. -/
def mapLookup (m : List (String × Nat)) (k : String) : Option Nat :=
  match m.find? (fun kv => kv.fst == k) with
  | some kv => some kv.snd
  | none => none

/-- `Map.set`: replace the binding if the key is present, else append it. -/
def mapInsert (m : List (String × Nat)) (k : String) (v : Nat) :
    List (String × Nat) :=
  if m.any (fun kv => kv.fst == k) then
    m.map fun kv => if kv.fst == k then (k, v) else kv
  else
    m ++ [(k, v)]

/-- JavaScript truthiness of a `Map.get` result: `undefined` and `0` are
falsy (`!lastMatch` in the source is true for both). -/
def jsTruthy : Option Nat → Bool
  | none => false
  | some n => n != 0

/-- The `debounceWindow` computation in `checkPatterns`:
`typeof d === "number" ? d : d === false ? 0 : 2000`. -/
def debounceWindowOf : DebounceSetting → Nat
  | .ms n => n
  | .off => 0
  | .unset => 2000

/-- The admission test of the debounce gate, verbatim from `checkPatterns`:
`debounceWindow === 0 || !lastMatch || Date.now() - lastMatch > debounceWindow`. -/
def debounceAdmits (window : Nat) (lastMatch : Option Nat) (now : Nat) : Bool :=
  window == 0 || !(jsTruthy lastMatch) || now - lastMatch.getD 0 > window

/-- The debounce key built in `checkPatterns`:
the template string `file-lineNumber-patternName`. -/
def matchKeyStr (filePath : String) (lineNumber : Nat) (patName : String) : String :=
  filePath ++ "-" ++ toString lineNumber ++ "-" ++ patName

/-- The mutable state `checkPatterns` touches: the static
`BaselineTracker.baseline` store, whether `this.baseline` was non-null when
`start()` loaded it (when it was, the field aliases the store object, so
later `updateBaseline` mutations are visible through it; when it was null it
stays null for the whole session), and the `recentMatches` map. -/
structure WatchState where
  store : Option Baseline
  loadedAtStart : Bool
  recent : List (String × Nat)
deriving Repr, DecidableEq

/-- The baseline `checkPatterns` actually consults (`this.baseline`). -/
def viewBaseline (s : WatchState) : Option Baseline :=
  if s.loadedAtStart then s.store else none

/-- `FileWatcher.start()` loading the baseline into a fresh session:
`this.baseline = await BaselineTracker.loadBaseline()` (the `recentMatches`
map is empty for a new watcher, and `stop()` clears it before a restart). -/
def startSession (store : Option Baseline) : WatchState :=
  ⟨store, store.isSome, []⟩

/-- Accumulator of the `checkPatterns` loops: the local `matches` array plus
the mutated instance state. -/
structure CheckAcc where
  matchList : List MatchInfo
  state : WatchState
deriving Repr, DecidableEq

/-- Body of the inner `while` loop of `FileWatcher.checkPatterns` for one
regex occurrence: baseline classification, the known-pattern skip, match
construction, the debounce gate and the scheduled baseline update. -/
def processOcc (relativize : String → String) (p : Pattern)
    (dbc : DebounceSetting) (line filePath : String) (lineNumber now : Nat)
    (acc : CheckAcc) (occ : Nat × String) : CheckAcc :=
  let relativePath := relativize filePath
  let fullLineContent := jsTrim line
  let isNew :=
    classifyIsNew (viewBaseline acc.state) relativePath lineNumber p.name fullLineContent
  if !isNew && (viewBaseline acc.state).isSome then
    acc
  else
    let matchInfo := mkMatchInfo p isNew line relativePath lineNumber occ.fst occ.snd now
    let matchKey := matchKeyStr filePath lineNumber p.name
    let lastMatch := mapLookup acc.state.recent matchKey
    let window := debounceWindowOf dbc
    if debounceAdmits window lastMatch now then
      let st1 := { acc.state with recent := mapInsert acc.state.recent matchKey now }
      let newEntry := createBaselineEntry relativePath lineNumber p.name fullLineContent
      let st2 :=
        if isNew then
          { st1 with store := updateBaseline st1.store [newEntry] now }
        else st1
      ⟨acc.matchList ++ [matchInfo], st2⟩
    else
      acc

/-- One iteration of the outer `for (const patternConfig of
this.config.patterns)` loop: run the exec loop of this rule over the line. -/
def processRule (engine : RegexEngine) (relativize : String → String)
    (dbc : DebounceSetting) (line filePath : String) (lineNumber now : Nat)
    (acc : CheckAcc) (p : Pattern) : CheckAcc :=
  (engine.execAll p.pattern line).foldl
    (processOcc relativize p dbc line filePath lineNumber now) acc

/-- `FileWatcher.checkPatterns`. -/
def checkPatterns (engine : RegexEngine) (relativize : String → String)
    (cfg : Config) (line filePath : String) (lineNumber : Nat)
    (s : WatchState) (now : Nat) : CheckAcc :=
  cfg.patterns.foldl
    (processRule engine relativize cfg.debounce line filePath lineNumber now)
    ⟨[], s⟩

/-- The per-line loop of `FileWatcher.processFile`: split the content on
newlines and run `checkPatterns` for each line with its 1-based number,
collecting the matches. -/
def processLines (engine : RegexEngine) (relativize : String → String)
    (cfg : Config) (filePath content : String) (s : WatchState) (now : Nat) :
    List MatchInfo × WatchState :=
  ((jsSplitNl content).enum).foldl
    (fun acc pr =>
      let r := checkPatterns engine relativize cfg pr.snd filePath (pr.fst + 1) acc.snd now
      (acc.fst ++ r.matchList, r.state))
    ([], s)

/-- `FileWatcher.processFile` after the read: the grep pre-filter on the full
file content (`if (this.grepPatterns.length > 0) { ... if (!hasMatch)
return; }`), then the per-line pipeline. -/
def processFileContent (engine : RegexEngine) (relativize : String → String)
    (cfg : Config) (grepPatterns : List String) (filePath content : String)
    (s : WatchState) (now : Nat) : List MatchInfo × WatchState :=
  if 0 < grepPatterns.length then
    let hasMatch := grepPatterns.any fun g => engine.test g content
    if !hasMatch then ([], s)
    else processLines engine relativize cfg filePath content s now
  else
    processLines engine relativize cfg filePath content s now

/-- Host platforms distinguished by `process.platform` in `playSound`. -/
inductive Platform where
  | darwin
  | win32
  | linux
deriving Repr, DecidableEq

/-- The sound field as read by `this.config.reactions?.sound` (`undefined`
when the whole `reactions` object is absent). -/
def soundSettingOf (cfg : Config) : JsSetting :=
  match cfg.reactions with
  | none => .undef
  | some r => r.sound

/-- The alert field as read by `this.config.reactions?.alert`. -/
def alertSettingOf (cfg : Config) : JsSetting :=
  match cfg.reactions with
  | none => .undef
  | some r => r.alert

/-- The interrupt field as read by `this.config.reactions?.interrupt`. -/
def interruptSettingOf (cfg : Config) : JsSetting :=
  match cfg.reactions with
  | none => .undef
  | some r => r.interrupt

/-- `soundEnabled`: `this.config.reactions?.sound !== false`. -/
def soundEnabled (cfg : Config) : Bool :=
  soundSettingOf cfg != .fls

/-- `alertEnabled`: `this.config.reactions?.alert !== false`. -/
def alertEnabled (cfg : Config) : Bool :=
  alertSettingOf cfg != .fls

/-- `interruptEnabled`: `interrupt === true || (typeof interrupt === "object"
&& interrupt !== null)`. -/
def interruptEnabled (cfg : Config) : Bool :=
  interruptSettingOf cfg == .tru ||
    (match interruptSettingOf cfg with
     | .obj _ => true
     | _ => false)

/-- `playSound`: the command resolution — a custom `command` from an object
config, else the platform default. -/
def resolveSoundCommand (cfg : Config) (platform : Platform) : String :=
  let fallback :=
    match platform with
    | .darwin => "afplay /System/Library/Sounds/Basso.aiff"
    | .win32 => "powershell SoundPlayer chord.wav"
    | .linux => "paplay /usr/share/sounds/freedesktop/stereo/bell.oga"
  match soundSettingOf cfg with
  | .obj (some cmd) => cmd
  | _ => fallback

/-- Observable side effects of `FileWatcher.executeReactions` and its
helpers. -/
inductive Effect where
  | emitMatch (pat file line : String)
  | soundPlayed (command : String)
  | notified (title body : String)
  | alertShown (pat file line message : String)
  | interruptAttempt (message location : String)
deriving Repr, DecidableEq

/-- JavaScript `a || b` on strings: the empty string is falsy. -/
def jsOrStr (a b : String) : String :=
  if a == "" then b else a

/-- The effects of one reaction for one match, following the `switch` in
`executeReactions`: sound plays the command and sends a notification when not
globally disabled; alert prints when not globally disabled; interrupt
attempts the keystroke injection when opted in, falling back to a
notification when the injection fails (`kbSuccess = false`); `webhook` has no
case in the switch. -/
def reactionEffects (cfg : Config) (platform : Platform) (kbSuccess : Bool)
    (m : MatchInfo) : ReactionType → List Effect
  | .sound =>
    if soundEnabled cfg then
      [ Effect.soundPlayed (resolveSoundCommand cfg platform)
      , Effect.notified "LLM Whip" ("Anti-cheat detected in " ++ m.file ++ ":" ++ m.line) ]
    else []
  | .alert =>
    if alertEnabled cfg then
      [Effect.alertShown m.pattern m.file m.line m.message]
    else []
  | .interrupt =>
    if interruptEnabled cfg then
      let location := m.file ++ ":" ++ m.line
      let interruptMessage :=
        match m.patternInterruptMessage with
        | some s => s
        | none => jsOrStr m.message (m.pattern ++ " detected - please review and fix")
      Effect.interruptAttempt interruptMessage location ::
        (if kbSuccess then []
         else [Effect.notified "LLM Whip - Anti-Cheat Detected"
                 (m.message ++ " at " ++ location)])
    else []
  | .webhook => []

/-- `FileWatcher.executeReactions`: per match, emit the `match` event, then
run the reactions in the order the match's reaction list declares them. -/
def executeReactions (cfg : Config) (platform : Platform) (kbSuccess : Bool)
    (matchList : List MatchInfo) : List Effect :=
  matchList.foldl
    (fun acc m =>
      acc ++ Effect.emitMatch m.pattern m.file m.line ::
        m.reactions.foldl (fun es r => es ++ reactionEffects cfg platform kbSuccess m r) [])
    []

/-- The `FileWatcher` instance fields touched by `start()` and `stop()`. -/
structure FileWatcherS where
  directories : List String
  watchers : List String
  recentMatches : List (String × Nat)
  fileContexts : List (String × String)
  baseline : Option Baseline
deriving Repr, DecidableEq

/-- `FileWatcher.stop()`: close every watcher and empty the array, remove the
listeners, clear `recentMatches` and `fileContexts`.  (The `baseline` field
is not touched.) -/
def stopW (w : FileWatcherS) : FileWatcherS :=
  { w with watchers := [], recentMatches := [], fileContexts := [] }

/-- `FileWatcher.start()` as it affects these fields: reload the baseline
from the tracker and attach one OS-level watch per configured directory. -/
def startW (store : Option Baseline) (w : FileWatcherS) : FileWatcherS :=
  { w with baseline := store, watchers := w.watchers ++ w.directories }

/-- One step of the debounce gate exactly as `checkPatterns` performs it: the
admission test, and on admission the `recentMatches.set(matchKey,
Date.now())` update. -/
def gateStep (window : Nat) (recent : List (String × Nat)) (key : String)
    (now : Nat) : List (String × Nat) × Bool :=
  if debounceAdmits window (mapLookup recent key) now then
    (mapInsert recent key now, true)
  else
    (recent, false)

/-- Run the debounce gate over a sequence of (key, time) occurrences,
returning the admitted ones. -/
def runDebounce (window : Nat) (events : List (String × Nat)) :
    List (String × Nat) :=
  (events.foldl
    (fun acc ev =>
      let r := gateStep window acc.fst ev.fst ev.snd
      (r.fst, acc.snd ++ (if r.snd then [ev] else [])))
    ([], [])).snd

/-- A fallible model of the platform `RegExp` constructor, for the code path
where a rule pattern fails to compile (`new RegExp(pattern, "gmi")` throws a
`SyntaxError`).  Restricted to the literal fragment: a pattern with
unbalanced parentheses — invalid in every JavaScript engine — is rejected;
any other pattern matches literally. -/
def parensBalanced (s : String) : Bool :=
  (s.toList.foldl
    (fun acc c =>
      match acc with
      | none => none
      | some d =>
        if c == '(' then some (d + 1)
        else if c == ')' then (if d == 0 then none else some (d - 1))
        else some d)
    (some 0)) == some 0

/-- The compile model used with the fallible pipeline. -/
def jsRegexCompile (pat : String) :
    Except String (String → List (Nat × String)) :=
  if parensBalanced pat then .ok (fun line => literalExecAll pat line)
  else .error ("Invalid regular expression: " ++ pat)

/-- `checkPatterns` with the regex construction made explicit: the source
builds `new RegExp(patternConfig.pattern, "gmi")` for every rule on every
line, so a malformed rule throws as soon as any line is checked; the
exception aborts the per-line call. -/
def processRuleE (compile : String → Except String (String → List (Nat × String)))
    (relativize : String → String) (dbc : DebounceSetting)
    (line filePath : String) (lineNumber now : Nat)
    (acc : CheckAcc) (p : Pattern) : Except String CheckAcc :=
  match compile p.pattern with
  | .error e => .error e
  | .ok exec =>
    .ok ((exec line).foldl
      (processOcc relativize p dbc line filePath lineNumber now) acc)

/-- Fallible `FileWatcher.checkPatterns`. -/
def checkPatternsE (compile : String → Except String (String → List (Nat × String)))
    (relativize : String → String) (cfg : Config) (line filePath : String)
    (lineNumber : Nat) (s : WatchState) (now : Nat) : Except String CheckAcc :=
  cfg.patterns.foldlM
    (processRuleE compile relativize cfg.debounce line filePath lineNumber now)
    ⟨[], s⟩

/-- Fallible `FileWatcher.processFile` (after the read): grep pre-filter,
then the per-line loop; an exception from `checkPatterns` propagates out of
`processFile`. -/
def processFileContentE
    (compile : String → Except String (String → List (Nat × String)))
    (relativize : String → String) (cfg : Config)
    (grepTest : String → String → Bool) (grepPatterns : List String)
    (filePath content : String) (s : WatchState) (now : Nat) :
    Except String (List MatchInfo × WatchState) :=
  if 0 < grepPatterns.length then
    let hasMatch := grepPatterns.any fun g => grepTest g content
    if !hasMatch then .ok ([], s)
    else
      ((jsSplitNl content).enum).foldlM
        (fun acc pr =>
          match checkPatternsE compile relativize cfg pr.snd filePath (pr.fst + 1) acc.snd now with
          | .error e => .error e
          | .ok r => .ok (acc.fst ++ r.matchList, r.state))
        ([], s)
  else
    ((jsSplitNl content).enum).foldlM
      (fun acc pr =>
        match checkPatternsE compile relativize cfg pr.snd filePath (pr.fst + 1) acc.snd now with
        | .error e => .error e
        | .ok r => .ok (acc.fst ++ r.matchList, r.state))
      ([], s)

/-- How the file-change handler in `watchDirectory` disposes of a processing
outcome: an exception from `processFile` is caught; unless it is a vanished
file (`ENOENT`, not the case for a `SyntaxError`) it is logged, and the watch
session continues either way. -/
inductive EventOutcome where
  | errorLogged (msg : String)
  | processed (matchList : List MatchInfo) (state : WatchState)
deriving Repr

/-- The file-change event handler: run `processFile` and catch. -/
def handleEvent
    (compile : String → Except String (String → List (Nat × String)))
    (relativize : String → String) (cfg : Config)
    (grepTest : String → String → Bool) (grepPatterns : List String)
    (filePath content : String) (s : WatchState) (now : Nat) : EventOutcome :=
  match processFileContentE compile relativize cfg grepTest grepPatterns
      filePath content s now with
  | .error e => .errorLogged e
  | .ok r => .processed r.fst r.snd

/-- Compile a list of pattern sources in order, stopping at the first
failure — the behaviour of `array.map(p => new RegExp(p))`. -/
def compileAll (compile : String → Except String (String → List (Nat × String))) :
    List String → Except String (List (String → List (Nat × String)))
  | [] => .ok []
  | p :: ps =>
    match compile p with
    | .error e => .error e
    | .ok r =>
      match compileAll compile ps with
      | .error e => .error e
      | .ok rs => .ok (r :: rs)

/-- Startup of the watch pipeline: the `FileWatcher` constructor compiles the
configured ignore patterns (`new RegExp(pattern)`) and grep patterns
(`new RegExp(pattern, "i")`), and `start()` loads the baseline and attaches
one watch per directory.  No code on this path compiles the rule patterns in
`cfg.patterns`. -/
def watchStartup
    (compile : String → Except String (String → List (Nat × String)))
    (cfg : Config) (ignorePatternsCfg grepPatternsCfg directories : List String)
    (store : Option Baseline) : Except String (FileWatcherS × WatchState) :=
  match compileAll compile ignorePatternsCfg with
  | .error e => .error e
  | .ok _ =>
    match compileAll compile grepPatternsCfg with
    | .error e => .error e
    | .ok _ =>
      .ok
        ( { directories := directories
          , watchers := directories
          , recentMatches := []
          , fileContexts := []
          , baseline := store }
        , startSession store )

/-! Concrete instances used by the examples, counterexamples and witnesses. -/

/-- A `todo` rule as in the spec's Scenario 1. -/
def patTodo : Pattern :=
  ⟨"todo", "TODO", none, none, none, none⟩

/-- A `fixme` rule. -/
def patFixme : Pattern :=
  ⟨"fixme", "FIXME", none, none, none, none⟩

/-- A config whose `debounce` field is absent (defaults to 2000 ms). -/
def cfgTodoDefault : Config :=
  ⟨[patTodo], none, .unset⟩

/-- A config with debounce disabled. -/
def cfgTodoOff : Config :=
  ⟨[patTodo], none, .off⟩

/-- A two-rule config with debounce disabled. -/
def cfgTwoRulesOff : Config :=
  ⟨[patTodo, patFixme], none, .off⟩

/-- A config with a 2000 ms debounce window given explicitly. -/
def cfgTodoMs2000 : Config :=
  ⟨[patTodo], none, .ms 2000⟩

/-- A config containing a rule whose pattern is not a valid regular
expression (`"("` has an unterminated group). -/
def cfgBadRule : Config :=
  ⟨[⟨"bad", "(", none, none, none, none⟩], none, .unset⟩

/-- A fresh watch state: no baseline stored, none loaded. -/
def freshState : WatchState :=
  ⟨none, false, []⟩

/-- A baseline used by the `updateBaseline` key-collision counterexample:
its single entry has a `:` inside the file path. -/
def bColon : Baseline :=
  ⟨10, [⟨"a:1", 2, "p", "cafe"⟩]⟩

/-- An entry whose (file, line, pattern, contentHash) tuple differs from
every entry of `bColon` but whose joined string key coincides with the one of
its entry. -/
def eColon : BaselineEntry :=
  ⟨"a", 1, "2:p", "cafe"⟩

/-- A populated watcher used by the `stop()` counterexample. -/
def wStop : FileWatcherS :=
  ⟨["proj"], ["proj"], [("proj/a.ts-1-todo", 5)], [("proj/a.ts", "1")],
   some ⟨7, [⟨"a.ts", 1, "todo", "x"⟩]⟩⟩

/-- A config whose global reaction settings disable `sound` only. -/
def cfgSoundOff : Config :=
  ⟨[patTodo], some ⟨.fls, .undef, .undef⟩, .unset⟩

/-- A match carrying both `sound` and `alert` reactions. -/
def mSoundAlert : MatchInfo :=
  { pattern := "todo", severity := "medium", matched := "TODO", index := 0
  , reactions := [ReactionType.sound, ReactionType.alert]
  , message := "todo detected", file := "a.ts", line := "3"
  , context := "TODO", timestamp := 42, fullLine := "TODO"
  , patternInterruptMessage := none }

/-! Theorems. -/

/-- C2: with no baseline loaded every match is classified new; with a
baseline, an occurrence is classified known exactly when some entry agrees on
file, line, pattern and the hash of the trimmed line; classification is
insensitive to leading/trailing whitespace of the line, and a change that
alters the hash (i.e. the trimmed content) turns a known occurrence back into
a new one. -/
theorem c2_theorem :
    (∀ (file : String) (line : Nat) (pat fullLine : String),
      classifyIsNew none file line pat fullLine = true)
    ∧ (∀ (b : Baseline) (file : String) (line : Nat) (pat fullLine : String),
      classifyIsNew (some b) file line pat fullLine = false ↔
        ∃ e ∈ b.entries, e.file = file ∧ e.line = line ∧ e.pattern = pat ∧
          e.contentHash = hashContent fullLine)
    ∧ (∀ (b : Baseline) (file : String) (line : Nat) (pat s t : String),
      jsTrim s = jsTrim t →
      classifyIsNew (some b) file line pat s = classifyIsNew (some b) file line pat t)
    ∧ (∀ (ts : Nat) (file : String) (line : Nat) (pat s t : String),
      hashContent s ≠ hashContent t →
      classifyIsNew (some ⟨ts, [createBaselineEntry file line pat s]⟩) file line pat s = false
      ∧ classifyIsNew (some ⟨ts, [createBaselineEntry file line pat s]⟩) file line pat t = true) := by
  refine ⟨fun _ _ _ _ => rfl, ?_, ?_, ?_⟩
  · intro b file line pat fullLine
    simp [classifyIsNew, isNewPattern, List.any_eq_true, and_assoc]
  · intro b file line pat s t h
    simp only [classifyIsNew, isNewPattern, hashContent, h]
  · intro ts file line pat s t h
    constructor
    · simp [classifyIsNew, isNewPattern, createBaselineEntry]
    · simp [classifyIsNew, isNewPattern, createBaselineEntry, h]

/-- C2 witness: a concrete baseline entry for `  let x = 1;  ` is recognised
as known for the re-indented line, and as new once the non-whitespace content
changes. -/
theorem c2_witness :
    classifyIsNew none "a.ts" 3 "todo" "// TODO" = true
    ∧ (classifyIsNew (some ⟨1, [⟨"a.ts", 3, "todo", hashContent "  let x = 1;  "⟩]⟩)
        "a.ts" 3 "todo" "  let x = 1;  " = false ↔
        ∃ e ∈ [(⟨"a.ts", 3, "todo", hashContent "  let x = 1;  "⟩ : BaselineEntry)],
          e.file = "a.ts" ∧ e.line = 3 ∧ e.pattern = "todo" ∧
          e.contentHash = hashContent "  let x = 1;  ")
    ∧ classifyIsNew (some ⟨1, [createBaselineEntry "a.ts" 3 "todo" "  let x = 1;  "]⟩)
        "a.ts" 3 "todo" "let x = 1;" =
      classifyIsNew (some ⟨1, [createBaselineEntry "a.ts" 3 "todo" "  let x = 1;  "]⟩)
        "a.ts" 3 "todo" "  let x = 1;  "
    ∧ classifyIsNew (some ⟨1, [createBaselineEntry "a.ts" 3 "todo" "  let x = 1;  "]⟩)
        "a.ts" 3 "todo" "  let x = 1;  " = false
    ∧ classifyIsNew (some ⟨1, [createBaselineEntry "a.ts" 3 "todo" "  let x = 1;  "]⟩)
        "a.ts" 3 "todo" "let x = 2;" = true := by
  refine ⟨c2_theorem.1 "a.ts" 3 "todo" "// TODO",
    c2_theorem.2.1 ⟨1, [⟨"a.ts", 3, "todo", hashContent "  let x = 1;  "⟩]⟩
      "a.ts" 3 "todo" "  let x = 1;  ",
    c2_theorem.2.2.1 ⟨1, [createBaselineEntry "a.ts" 3 "todo" "  let x = 1;  "]⟩
      "a.ts" 3 "todo" "let x = 1;" "  let x = 1;  " (by decide),
    (c2_theorem.2.2.2 1 "a.ts" 3 "todo" "  let x = 1;  " "let x = 2;" (by decide)).1,
    (c2_theorem.2.2.2 1 "a.ts" 3 "todo" "  let x = 1;  " "let x = 2;" (by decide)).2⟩

/-- C5 counterexample: `updateBaseline` compares entries by the joined string
`file:line:pattern:contentHash`, so an entry whose (file, line, pattern,
contentHash) tuple is genuinely new is dropped — and the timestamp is not
refreshed — when its joined key collides with an existing entry's (here
`a:1` / line 2 versus `a` / line 1 with `2:p` as the pattern name). -/
theorem c5_counterexample :
    (∀ e ∈ bColon.entries,
      ¬(e.file = eColon.file ∧ e.line = eColon.line ∧ e.pattern = eColon.pattern ∧
        e.contentHash = eColon.contentHash))
    ∧ updateBaseline (some bColon) [eColon] 99 = some bColon
    ∧ bColon.timestamp ≠ 99 := by
  decide

/-- C5 amended: with entries identified by the joined string key
`file:line:pattern:contentHash` (as `updateBaseline` actually compares them),
recording is idempotent — a batch whose keys are all present leaves the
baseline unchanged — and a batch containing at least one new key appends
exactly the entries with new keys and refreshes the timestamp. -/
theorem c5_amended :
    (∀ (b : Baseline) (es : List BaselineEntry) (now : Nat),
      (∀ e ∈ es, entryKeyStr e ∈ b.entries.map entryKeyStr) →
      updateBaseline (some b) es now = some b)
    ∧ (∀ (b : Baseline) (es : List BaselineEntry) (now : Nat),
      (∃ e ∈ es, entryKeyStr e ∉ b.entries.map entryKeyStr) →
      updateBaseline (some b) es now =
        some ⟨now, b.entries ++
          es.filter fun e =>
            !((b.entries.map entryKeyStr).any fun k => k == entryKeyStr e)⟩) := by
  constructor
  · intro b es now h
    have hfil : (es.filter fun e =>
        !((b.entries.map entryKeyStr).any fun k => k == entryKeyStr e)) = [] := by
      rw [List.filter_eq_nil]
      intro e he
      simp only [Bool.not_eq_true', Bool.not_eq_false, List.any_eq_true, beq_iff_eq]
      exact ⟨entryKeyStr e, h e he, rfl⟩
    simp only [updateBaseline, hfil, List.length_nil, gt_iff_lt, Nat.lt_irrefl,
      if_false]
  · intro b es now h
    obtain ⟨e, he, hkey⟩ := h
    have hmem : e ∈ es.filter fun e =>
        !((b.entries.map entryKeyStr).any fun k => k == entryKeyStr e) := by
      rw [List.mem_filter]
      refine ⟨he, ?_⟩
      simp only [Bool.not_eq_true', List.any_eq_false, beq_iff_eq]
      intro k hk hcontra
      exact hkey (hcontra ▸ hk)
    have hlen : 0 < (es.filter fun e =>
        !((b.entries.map entryKeyStr).any fun k => k == entryKeyStr e)).length :=
      List.length_pos.mpr (List.ne_nil_of_mem hmem)
    simp only [updateBaseline, gt_iff_lt, hlen, if_true]

/-- C5 witness: re-recording an existing entry is a no-op, and recording a
batch with one old and one new key appends exactly the new entry and stamps
the baseline with the new time. -/
theorem c5_witness :
    updateBaseline (some ⟨10, [⟨"a.ts", 1, "todo", "x"⟩]⟩)
      [⟨"a.ts", 1, "todo", "x"⟩] 99 = some ⟨10, [⟨"a.ts", 1, "todo", "x"⟩]⟩
    ∧ updateBaseline (some ⟨10, [⟨"a.ts", 1, "todo", "x"⟩]⟩)
      [⟨"a.ts", 1, "todo", "x"⟩, ⟨"b.ts", 2, "fixme", "y"⟩] 99 =
      some ⟨99, [⟨"a.ts", 1, "todo", "x"⟩, ⟨"b.ts", 2, "fixme", "y"⟩]⟩ := by
  constructor
  · exact c5_amended.1 ⟨10, [⟨"a.ts", 1, "todo", "x"⟩]⟩
      [⟨"a.ts", 1, "todo", "x"⟩] 99 (by decide)
  · have h := c5_amended.2 ⟨10, [⟨"a.ts", 1, "todo", "x"⟩]⟩
      [⟨"a.ts", 1, "todo", "x"⟩, ⟨"b.ts", 2, "fixme", "y"⟩] 99
      ⟨⟨"b.ts", 2, "fixme", "y"⟩, by decide, by decide⟩
    rw [h]
    decide

/-- C6: when grep patterns are configured and none of them matches anywhere
in the file's full content, processing the file produces zero matches and
leaves the state untouched — the grep check runs on the whole content after
the read, before any per-line processing. -/
theorem c6_theorem :
    ∀ (engine : RegexEngine) (relativize : String → String) (cfg : Config)
      (gps : List String) (filePath content : String) (s : WatchState) (now : Nat),
      gps ≠ [] → (∀ g ∈ gps, engine.test g content = false) →
      processFileContent engine relativize cfg gps filePath content s now = ([], s) := by
  intro engine relativize cfg gps filePath content s now h1 h2
  have hlen : 0 < gps.length := List.length_pos.mpr h1
  have hany : (gps.any fun g => engine.test g content) = false := by
    rw [List.any_eq_false]
    intro g hg
    simp [h2 g hg]
  simp only [processFileContent, hlen, if_true, hany, Bool.not_false, if_pos]

/-- C6 witness: with grep filter `FIXME` configured, a file containing `TODO`
but no `FIXME` yields zero matches even though the `todo` rule alone would
match the line. -/
theorem c6_witness :
    processFileContent literalEngine id cfgTodoDefault ["FIXME"] "a.ts"
      "// TODO: fix" freshState 5 = ([], freshState)
    ∧ (checkPatterns literalEngine id cfgTodoDefault "// TODO: fix" "a.ts" 1
        freshState 5).matchList.length = 1 := by
  refine ⟨c6_theorem literalEngine id cfgTodoDefault ["FIXME"] "a.ts"
    "// TODO: fix" freshState 5 (by decide) (by decide), by decide⟩

/-- C7 counterexample: `stop()` clears the debounce map and the file
contexts but does not clear the watcher's baseline field — after `stop()` the
previously loaded baseline is still referenced, so the claim that the
baseline state is cleared fails. -/
theorem c7_counterexample :
    (stopW wStop).watchers = []
    ∧ (stopW wStop).recentMatches = []
    ∧ (stopW wStop).baseline = wStop.baseline
    ∧ (stopW wStop).baseline ≠ none := by
  decide

/-- C7 amended: `stop()` detaches all watches and clears the debounce and
file-context state while leaving the baseline field untouched; a subsequent
`start()` overwrites that field by reloading from the tracker and re-attaches
one watch per directory, so the restarted session behaves as a fresh one with
the baseline reloaded. -/
theorem c7_amended :
    ∀ (w : FileWatcherS) (store : Option Baseline),
      (stopW w).watchers = []
      ∧ (stopW w).recentMatches = []
      ∧ (stopW w).fileContexts = []
      ∧ (stopW w).baseline = w.baseline
      ∧ (startW store (stopW w)).baseline = store
      ∧ (startW store (stopW w)).watchers = w.directories
      ∧ startSession store = ⟨store, store.isSome, []⟩ := by
  intro w store
  refine ⟨rfl, rfl, rfl, rfl, rfl, ?_, rfl⟩
  simp [startW, stopW]

/-- Folding list appends is flattening (helper for reasoning about
`executeReactions`). -/
theorem foldl_append_eq_bind {α β : Type} (f : α → List β) :
    ∀ (l : List α) (init : List β),
      l.foldl (fun es r => es ++ f r) init = init ++ l.bind f := by
  intro l
  induction l with
  | nil => intro init; simp
  | cons a as ih =>
    intro init
    simp [List.foldl_cons, ih, List.append_assoc]

/-- `executeReactions` on a single match is the emit event followed by the
per-reaction effects in declaration order. -/
theorem executeReactions_single (cfg : Config) (platform : Platform)
    (kb : Bool) (m : MatchInfo) :
    executeReactions cfg platform kb [m] =
      Effect.emitMatch m.pattern m.file m.line ::
        m.reactions.bind (reactionEffects cfg platform kb m) := by
  simp [executeReactions, foldl_append_eq_bind]

/-- C8: when the global reaction configuration sets `sound: false`, no
dispatch of a match ever plays the audio command — even if the match's
reaction list opts into `sound` — while an `alert` reaction on the same match
still fires whenever `alert` is not itself globally disabled. -/
theorem c8_theorem :
    ∀ (cfg : Config) (platform : Platform) (kb : Bool) (m : MatchInfo),
      soundSettingOf cfg = .fls →
      (∀ c, Effect.soundPlayed c ∉ executeReactions cfg platform kb [m])
      ∧ (alertEnabled cfg = true → ReactionType.alert ∈ m.reactions →
          Effect.alertShown m.pattern m.file m.line m.message ∈
            executeReactions cfg platform kb [m]) := by
  intro cfg platform kb m hsound
  have hdisabled : soundEnabled cfg = false := by
    simp [soundEnabled, hsound]
  constructor
  · intro c hmem
    rw [executeReactions_single] at hmem
    rcases List.mem_cons.mp hmem with h | h
    · exact Effect.noConfusion h
    · obtain ⟨r, _, hr⟩ := List.mem_bind.mp h
      cases r with
      | sound => rw [reactionEffects, hdisabled] at hr; simp at hr
      | alert =>
        rw [reactionEffects] at hr
        cases ha : alertEnabled cfg <;> simp [ha] at hr
      | interrupt =>
        rw [reactionEffects] at hr
        cases hi : interruptEnabled cfg with
        | false => simp [hi] at hr
        | true =>
          simp only [hi, if_true] at hr
          rcases List.mem_cons.mp hr with h' | h'
          · exact Effect.noConfusion h'
          · cases kb <;> simp_all
      | webhook => simp [reactionEffects] at hr
  · intro halert hmem
    rw [executeReactions_single]
    refine List.mem_cons_of_mem _ (List.mem_bind.mpr ⟨ReactionType.alert, hmem, ?_⟩)
    simp [reactionEffects, halert]

/-- C8 witness: a match with reactions `[sound, alert]` under a config with
`sound: false` produces the alert effect but not the audio-playback effect. -/
theorem c8_witness :
    Effect.soundPlayed "afplay /System/Library/Sounds/Basso.aiff" ∉
      executeReactions cfgSoundOff Platform.darwin true [mSoundAlert]
    ∧ Effect.alertShown "todo" "a.ts" "3" "todo detected" ∈
      executeReactions cfgSoundOff Platform.darwin true [mSoundAlert] := by
  have h := c8_theorem cfgSoundOff Platform.darwin true mSoundAlert rfl
  exact ⟨h.1 "afplay /System/Library/Sounds/Basso.aiff",
    h.2 (by decide) (by decide)⟩

/-- C3 counterexample: with a 2000 ms window, a second occurrence of the same
(file, line, pattern) key exactly 2000 ms after the first — so with Δ ≥
window — is still suppressed, because the source compares with a strict
`Date.now() - lastMatch > debounceWindow`; the claim's "Δ ≥ window yields
two" fails at Δ = window. -/
theorem c3_counterexample :
    2000 ≤ 3000 - 1000
    ∧ (checkPatterns literalEngine id cfgTodoMs2000 "TODO" "a.ts" 1
        freshState 1000).matchList.length = 1
    ∧ (checkPatterns literalEngine id cfgTodoMs2000 "TODO" "a.ts" 1
        (checkPatterns literalEngine id cfgTodoMs2000 "TODO" "a.ts" 1
          freshState 1000).state 3000).matchList.length = 0
    ∧ runDebounce 2000 [("a.ts-1-todo", 1000), ("a.ts-1-todo", 3000)]
        = [("a.ts-1-todo", 1000)] := by
  decide

/-- With window 0 every event is admitted (helper). -/
theorem runDebounce_zero_aux :
    ∀ (events : List (String × Nat)) (st : List (String × Nat))
      (out : List (String × Nat)),
      (events.foldl
        (fun acc ev =>
          let r := gateStep 0 acc.fst ev.fst ev.snd
          (r.fst, acc.snd ++ (if r.snd then [ev] else [])))
        (st, out)).snd = out ++ events := by
  intro events
  induction events with
  | nil => intro st out; simp
  | cons e es ih =>
    intro st out
    have hadm : gateStep 0 st e.fst e.snd = (mapInsert st e.fst e.snd, true) := by
      simp [gateStep, debounceAdmits]
    simp only [List.foldl_cons, hadm, if_true]
    rw [ih]
    simp

/-- C3 amended: the debounce gate admits an occurrence iff the window is 0
(including the explicit `false` disable), or no prior occurrence of its key
was admitted, or strictly more than the window has elapsed since the last
admitted one; so, for positive times and a positive window, occurrences of
one key at t and t+d give exactly one admitted match when d ≤ window and two
when d > window, and with debounce disabled every occurrence passes.
Suppressed occurrences leave the gate state unchanged (discarded, not
queued). -/
theorem c3_amended :
    (∀ events, runDebounce (debounceWindowOf DebounceSetting.off) events = events)
    ∧ (∀ events, runDebounce 0 events = events)
    ∧ (∀ (window : Nat) (recent : List (String × Nat)) (key : String) (now : Nat),
        mapLookup recent key = none →
        gateStep window recent key now = (mapInsert recent key now, true))
    ∧ (∀ (window : Nat) (recent : List (String × Nat)) (key : String) (now : Nat),
        debounceAdmits window (mapLookup recent key) now = false →
        gateStep window recent key now = (recent, false))
    ∧ (∀ (key : String) (t d window : Nat), 0 < t → 0 < window →
        (d ≤ window → runDebounce window [(key, t), (key, t + d)] = [(key, t)])
        ∧ (window < d →
            runDebounce window [(key, t), (key, t + d)] = [(key, t), (key, t + d)])) := by
  refine ⟨?_, ?_, ?_, ?_, ?_⟩
  · intro events
    have h := runDebounce_zero_aux events [] []
    simpa [runDebounce, debounceWindowOf] using h
  · intro events
    have h := runDebounce_zero_aux events [] []
    simpa [runDebounce] using h
  · intro window recent key now h
    simp [gateStep, debounceAdmits, h, jsTruthy]
  · intro window recent key now h
    simp [gateStep, h]
  · intro key t d window ht hw
    have hlook1 : mapLookup [] key = none := rfl
    have hstep1 : gateStep window [] key t = (mapInsert [] key t, true) := by
      simp [gateStep, debounceAdmits, hlook1, jsTruthy]
    have hins : mapInsert [] key t = [(key, t)] := by simp [mapInsert]
    have hlook2 : mapLookup [(key, t)] key = some t := by
      simp [mapLookup, List.find?]
    have htr : jsTruthy (some t) = true := by
      simp [jsTruthy]
      omega
    have harith : t + d - t = d := by omega
    constructor
    · intro hd
      have hadm2 : debounceAdmits window (some t) (t + d) = false := by
        simp only [debounceAdmits, jsTruthy, Option.getD_some, harith]
        simp only [Bool.or_eq_false_iff]
        refine ⟨⟨?_, ?_⟩, ?_⟩
        · simp [Nat.pos_iff_ne_zero.mp hw]
        · simp
          omega
        · simp
          omega
      simp only [runDebounce, List.foldl_cons, List.foldl_nil, hstep1, hins,
        if_true]
      have hstep2 : gateStep window [(key, t)] key (t + d) = ([(key, t)], false) := by
        simp [gateStep, hlook2, hadm2]
      simp [hstep2]
    · intro hd
      have hadm2 : debounceAdmits window (some t) (t + d) = true := by
        simp only [debounceAdmits, jsTruthy, Option.getD_some, harith]
        have : decide (d > window) = true := by simp; omega
        simp [this]
      simp only [runDebounce, List.foldl_cons, List.foldl_nil, hstep1, hins,
        if_true]
      have hstep2 : gateStep window [(key, t)] key (t + d)
          = (mapInsert [(key, t)] key (t + d), true) := by
        simp [gateStep, hlook2, hadm2]
      simp [hstep2]

/-- C3 witness: a 100 ms window admits the first occurrence, suppresses a
repeat 100 ms later, and admits a repeat 101 ms later; a disabled gate admits
everything. -/
theorem c3_witness :
    runDebounce (debounceWindowOf DebounceSetting.off)
      [("k", 5), ("k", 5), ("k", 6)] = [("k", 5), ("k", 5), ("k", 6)]
    ∧ runDebounce 100 [("k", 50), ("k", 150)] = [("k", 50)]
    ∧ runDebounce 100 [("k", 50), ("k", 151)] = [("k", 50), ("k", 151)] := by
  refine ⟨c3_amended.1 [("k", 5), ("k", 5), ("k", 6)], ?_, ?_⟩
  · have h := (c3_amended.2.2.2.2 "k" 50 100 100 (by decide) (by decide)).1
      (by decide)
    simpa using h
  · have h := (c3_amended.2.2.2.2 "k" 50 101 100 (by decide) (by decide)).2
      (by decide)
    simpa using h

/-- `processOcc` never changes the `loadedAtStart` flag (helper). -/
theorem processOcc_loadedAtStart (relativize : String → String) (p : Pattern)
    (dbc : DebounceSetting) (line filePath : String) (lineNumber now : Nat)
    (acc : CheckAcc) (occ : Nat × String) :
    (processOcc relativize p dbc line filePath lineNumber now acc occ).state.loadedAtStart
      = acc.state.loadedAtStart := by
  simp only [processOcc]
  split
  · rfl
  · split
    · split <;> rfl
    · rfl

/-- With no baseline loaded and a zero debounce window, each occurrence
appends exactly one match (helper). -/
theorem processOcc_count (relativize : String → String) (p : Pattern)
    (dbc : DebounceSetting) (line filePath : String) (lineNumber now : Nat)
    (acc : CheckAcc) (occ : Nat × String)
    (hl : acc.state.loadedAtStart = false)
    (hw : debounceWindowOf dbc = 0) :
    (processOcc relativize p dbc line filePath lineNumber now acc occ).matchList.length
      = acc.matchList.length + 1 := by
  have hview : viewBaseline acc.state = none := by simp [viewBaseline, hl]
  have hnew : classifyIsNew (viewBaseline acc.state) (relativize filePath)
      lineNumber p.name (jsTrim line) = true := by
    rw [hview]; rfl
  have hadm : debounceAdmits (debounceWindowOf dbc)
      (mapLookup acc.state.recent (matchKeyStr filePath lineNumber p.name)) now
      = true := by
    simp [debounceAdmits, hw]
  simp only [processOcc, hnew, hview, Option.isSome_none, Bool.not_true,
    Bool.false_and, Bool.and_false, if_false, hadm, if_true]
  simp

/-- Folding occurrences with no baseline loaded and window 0 adds one match
per occurrence and keeps the flag false (helper). -/
theorem foldlOcc_count (relativize : String → String) (p : Pattern)
    (dbc : DebounceSetting) (line filePath : String) (lineNumber now : Nat)
    (hw : debounceWindowOf dbc = 0) :
    ∀ (occs : List (Nat × String)) (acc : CheckAcc),
      acc.state.loadedAtStart = false →
      ((occs.foldl (processOcc relativize p dbc line filePath lineNumber now)
          acc).matchList.length = acc.matchList.length + occs.length
      ∧ (occs.foldl (processOcc relativize p dbc line filePath lineNumber now)
          acc).state.loadedAtStart = false) := by
  intro occs
  induction occs with
  | nil => intro acc hl; simpa using hl
  | cons o os ih =>
    intro acc hl
    have hstep := processOcc_count relativize p dbc line filePath lineNumber now
      acc o hl hw
    have hflag : (processOcc relativize p dbc line filePath lineNumber now
        acc o).state.loadedAtStart = false := by
      rw [processOcc_loadedAtStart]; exact hl
    obtain ⟨ihlen, ihflag⟩ := ih
      (processOcc relativize p dbc line filePath lineNumber now acc o) hflag
    refine ⟨?_, by simpa using ihflag⟩
    simp only [List.foldl_cons]
    rw [ihlen, hstep]
    simp [Nat.add_assoc, Nat.add_comm 1]

/-- Folding the rules of a config with no baseline loaded and window 0 yields
one match per occurrence per rule in declaration order (helper). -/
theorem foldlRule_count (engine : RegexEngine) (relativize : String → String)
    (dbc : DebounceSetting) (line filePath : String) (lineNumber now : Nat)
    (hw : debounceWindowOf dbc = 0) :
    ∀ (ps : List Pattern) (acc : CheckAcc),
      acc.state.loadedAtStart = false →
      ((ps.foldl (processRule engine relativize dbc line filePath lineNumber now)
          acc).matchList.length
        = acc.matchList.length
          + (ps.map fun p => (engine.execAll p.pattern line).length).sum
      ∧ (ps.foldl (processRule engine relativize dbc line filePath lineNumber now)
          acc).state.loadedAtStart = false) := by
  intro ps
  induction ps with
  | nil => intro acc hl; simpa using hl
  | cons p rest ih =>
    intro acc hl
    obtain ⟨hlen1, hflag1⟩ := foldlOcc_count relativize p dbc line filePath
      lineNumber now hw (engine.execAll p.pattern line) acc hl
    obtain ⟨ihlen, ihflag⟩ := ih
      (processRule engine relativize dbc line filePath lineNumber now acc p)
      (by simpa [processRule] using hflag1)
    refine ⟨?_, by simpa using ihflag⟩
    simp only [List.foldl_cons]
    rw [ihlen]
    simp only [processRule] at hlen1 ⊢
    rw [hlen1]
    simp [Nat.add_assoc]

/-- C1 counterexample: `checkPatterns` is not a pure pattern engine — the
debounce gate runs inside it and keys on (file, line, pattern), so under the
default 2000 ms window a rule matching twice on one line yields one Match,
not two. -/
theorem c1_counterexample :
    (literalEngine.execAll "TODO" "TODO TODO").length = 2
    ∧ (checkPatterns literalEngine id cfgTodoDefault "TODO TODO" "a.ts" 3
        freshState 1000).matchList.length = 1 := by
  decide

/-- C1 amended: when no baseline is loaded and debounce is disabled (window
0), `checkPatterns` returns exactly one Match per rule per non-overlapping
occurrence produced by the engine for that rule — rules evaluated
independently in declaration order — so the total equals the sum of the
occurrence counts over the rules. -/
theorem c1_amended :
    ∀ (engine : RegexEngine) (relativize : String → String) (cfg : Config)
      (line filePath : String) (lineNumber : Nat) (s : WatchState) (now : Nat),
      s.loadedAtStart = false →
      debounceWindowOf cfg.debounce = 0 →
      (checkPatterns engine relativize cfg line filePath lineNumber s now).matchList.length
        = (cfg.patterns.map fun p => (engine.execAll p.pattern line).length).sum := by
  intro engine relativize cfg line filePath lineNumber s now hl hw
  have h := (foldlRule_count engine relativize cfg.debounce line filePath
    lineNumber now hw cfg.patterns ⟨[], s⟩ hl).1
  simpa [checkPatterns] using h

/-- C1 witness: two rules on a line with three case-insensitive occurrences
in total (`todo` twice, `FIXME` once) give exactly three matches with
debounce disabled and no baseline. -/
theorem c1_witness :
    (checkPatterns literalEngine id cfgTwoRulesOff "todo FIXME Todo" "a.ts" 1
      freshState 7).matchList.length = 3 := by
  have h := c1_amended literalEngine id cfgTwoRulesOff "todo FIXME Todo" "a.ts"
    1 freshState 7 rfl rfl
  rw [h]
  decide

/-- If the first rule's pattern fails to compile, any `checkPatterns` call
throws that compile error (helper). -/
theorem checkPatternsE_error_first
    (compile : String → Except String (String → List (Nat × String)))
    (relativize : String → String) (p : Pattern) (rest : List Pattern)
    (reacts : Option ReactionConfig) (dbc : DebounceSetting)
    (line filePath : String) (ln : Nat) (s : WatchState) (now : Nat)
    (msg : String) (hcomp : compile p.pattern = .error msg) :
    checkPatternsE compile relativize ⟨p :: rest, reacts, dbc⟩ line filePath ln
      s now = .error msg := by
  simp only [checkPatternsE, List.foldlM_cons, processRuleE, hcomp]
  rfl

/-- C4 counterexample: a configuration whose single rule has the malformed
pattern `(` does not make startup fail — the watcher constructor and
`start()` never compile the rule patterns — and the compile error only
surfaces once a file event is processed, where it is caught and logged, the
read having already happened. -/
theorem c4_counterexample :
    jsRegexCompile "(" = .error "Invalid regular expression: ("
    ∧ watchStartup jsRegexCompile cfgBadRule [] [] ["src"] none
        = .ok (⟨["src"], ["src"], [], [], none⟩, ⟨none, false, []⟩)
    ∧ handleEvent jsRegexCompile id cfgBadRule literalTest [] "src/a.ts"
        "const x = 1" freshState 1000
        = .errorLogged "Invalid regular expression: (" := by
  exact ⟨rfl, rfl, rfl⟩

/-- C4 amended: startup performs no rule-pattern compilation — it succeeds
whenever the ignore and grep patterns compile, regardless of the rule
patterns — and a rule whose pattern fails to compile instead makes every file
event's processing throw at match time, after the read; the watcher catches
that error and logs it, so the malformed rule is reported per event, not as a
fatal configuration error before processing. -/
theorem c4_amended :
    (∀ (compile : String → Except String (String → List (Nat × String)))
      (cfg : Config) (igs gps dirs : List String) (store : Option Baseline)
      (irs : List (String → List (Nat × String)))
      (grs : List (String → List (Nat × String))),
      compileAll compile igs = .ok irs →
      compileAll compile gps = .ok grs →
      watchStartup compile cfg igs gps dirs store =
        .ok (⟨dirs, dirs, [], [], store⟩, startSession store))
    ∧ (∀ (compile : String → Except String (String → List (Nat × String)))
      (relativize : String → String) (p : Pattern) (rest : List Pattern)
      (reacts : Option ReactionConfig) (dbc : DebounceSetting)
      (gt : String → String → Bool) (filePath content : String)
      (s : WatchState) (now : Nat) (msg l0 : String) (ls : List String),
      compile p.pattern = .error msg →
      jsSplitNl content = l0 :: ls →
      handleEvent compile relativize ⟨p :: rest, reacts, dbc⟩ gt [] filePath
        content s now = .errorLogged msg) := by
  constructor
  · intro compile cfg igs gps dirs store irs grs h1 h2
    simp [watchStartup, h1, h2]
  · intro compile relativize p rest reacts dbc gt filePath content s now msg
      l0 ls hcomp hsplit
    have hchk := checkPatternsE_error_first compile relativize p rest reacts
      dbc l0 filePath 1 s now msg hcomp
    simp only [handleEvent, processFileContentE, hsplit, List.length_nil,
      lt_self_iff_false, if_false, List.enum, List.enumFrom, List.foldlM_cons,
      hchk]
    rfl

/-- C4 amended witness: the concrete bad-rule configuration starts up fine
and its first processed event is logged as an error. -/
theorem c4_amended_witness :
    watchStartup jsRegexCompile cfgBadRule ["node_modules"] [] ["src"] none
      = .ok (⟨["src"], ["src"], [], [], none⟩, startSession none)
    ∧ handleEvent jsRegexCompile id cfgBadRule literalTest [] "src/a.ts"
        "let y = 2" freshState 4 = .errorLogged "Invalid regular expression: (" := by
  constructor
  · exact c4_amended.1 jsRegexCompile cfgBadRule ["node_modules"] [] ["src"]
      none [fun line => literalExecAll "node_modules" line] [] rfl rfl
  · exact c4_amended.2 jsRegexCompile id ⟨"bad", "(", none, none, none, none⟩
      [] none .unset literalTest "src/a.ts" "let y = 2" freshState 4
      "Invalid regular expression: (" "let y = 2" [] rfl rfl

/-- An occurrence whose exact (file, line, pattern, hash) entry is recorded
is classified known (helper). -/
theorem isNewPattern_false_of_mem (file : String) (ln : Nat) (pat fl : String)
    (b : Baseline)
    (h : (⟨file, ln, pat, hashContent fl⟩ : BaselineEntry) ∈ b.entries) :
    isNewPattern file ln pat fl b = false := by
  have hx : (b.entries.any fun e =>
      e.file == file && e.line == ln && e.pattern == pat &&
        e.contentHash == hashContent fl) = true := by
    rw [List.any_eq_true]
    exact ⟨_, h, by simp⟩
  simp [isNewPattern, hx]

/-- An occurrence whose joined string key is absent from the baseline is
classified new (helper). -/
theorem isNewPattern_true_of_fresh_key (file : String) (ln : Nat)
    (pat fl : String) (b : Baseline)
    (h : entryKeyStr (createBaselineEntry file ln pat fl) ∉
      b.entries.map entryKeyStr) :
    isNewPattern file ln pat fl b = true := by
  simp only [isNewPattern, Bool.not_eq_true', List.any_eq_false]
  intro e he
  simp only [Bool.and_eq_true, beq_iff_eq]
  rintro ⟨⟨⟨h1, h2⟩, h3⟩, h4⟩
  apply h
  refine List.mem_map.mpr ⟨e, he, ?_⟩
  simp [entryKeyStr, createBaselineEntry, h1, h2, h3, h4]

/-- Recording a single entry whose key is fresh appends it and refreshes the
timestamp (helper). -/
theorem updateBaseline_fresh_single (b : Baseline) (e : BaselineEntry)
    (now : Nat) (h : entryKeyStr e ∉ b.entries.map entryKeyStr) :
    updateBaseline (some b) [e] now = some ⟨now, b.entries ++ [e]⟩ := by
  have hany : ((b.entries.map entryKeyStr).any fun k => k == entryKeyStr e)
      = false := by
    rw [List.any_eq_false]
    intro k hk
    simp only [beq_iff_eq]
    intro hcontra
    exact h (hcontra ▸ hk)
  simp [updateBaseline, hany]

/-- Re-recording a single already-present entry is a no-op (helper). -/
theorem updateBaseline_dup_single (b : Baseline) (e : BaselineEntry)
    (now : Nat) (h : e ∈ b.entries) :
    updateBaseline (some b) [e] now = some b := by
  have hany : ((b.entries.map entryKeyStr).any fun k => k == entryKeyStr e)
      = true := by
    rw [List.any_eq_true]
    exact ⟨entryKeyStr e, List.mem_map_of_mem entryKeyStr h, by simp⟩
  simp [updateBaseline, hany]

/-- `processFileContent` with no grep patterns and a single-line content is
one `checkPatterns` call on that line (helper). -/
theorem processFileContent_single (engine : RegexEngine)
    (relativize : String → String) (cfg : Config) (filePath content : String)
    (s : WatchState) (now : Nat) (hsplit : jsSplitNl content = [content]) :
    processFileContent engine relativize cfg [] filePath content s now
      = ((checkPatterns engine relativize cfg content filePath 1 s now).matchList,
         (checkPatterns engine relativize cfg content filePath 1 s now).state) := by
  simp [processFileContent, processLines, hsplit, List.enum, List.enumFrom]

/-- `checkPatterns` for a single rule with a single occurrence is one
`processOcc` step (helper). -/
theorem checkPatterns_single_rule (engine : RegexEngine)
    (relativize : String → String) (p : Pattern)
    (reacts : Option ReactionConfig) (dbc : DebounceSetting)
    (line filePath : String) (ln : Nat) (s : WatchState) (now : Nat)
    (i : Nat) (mstr : String)
    (hocc : engine.execAll p.pattern line = [(i, mstr)]) :
    checkPatterns engine relativize ⟨[p], reacts, dbc⟩ line filePath ln s now
      = processOcc relativize p dbc line filePath ln now ⟨[], s⟩ (i, mstr) := by
  simp [checkPatterns, processRule, hocc]

/-- A new, debounce-admitted occurrence appends its match, records its
baseline entry through `updateBaseline` and stamps the debounce key
(helper). -/
theorem processOcc_fresh_pass (relativize : String → String) (p : Pattern)
    (dbc : DebounceSetting) (line filePath : String) (ln now : Nat)
    (acc : CheckAcc) (i : Nat) (mstr : String)
    (hnew : classifyIsNew (viewBaseline acc.state) (relativize filePath) ln
      p.name (jsTrim line) = true)
    (hadm : debounceAdmits (debounceWindowOf dbc)
      (mapLookup acc.state.recent (matchKeyStr filePath ln p.name)) now = true) :
    processOcc relativize p dbc line filePath ln now acc (i, mstr) =
      ⟨acc.matchList ++ [mkMatchInfo p true line (relativize filePath) ln i mstr now],
       ⟨updateBaseline acc.state.store
          [createBaselineEntry (relativize filePath) ln p.name (jsTrim line)] now,
        acc.state.loadedAtStart,
        mapInsert acc.state.recent (matchKeyStr filePath ln p.name) now⟩⟩ := by
  simp [processOcc, hnew, hadm]

/-- A known occurrence under a loaded baseline is skipped entirely
(helper). -/
theorem processOcc_known_skip (relativize : String → String) (p : Pattern)
    (dbc : DebounceSetting) (line filePath : String) (ln now : Nat)
    (acc : CheckAcc) (i : Nat) (mstr : String)
    (hnew : classifyIsNew (viewBaseline acc.state) (relativize filePath) ln
      p.name (jsTrim line) = false)
    (hsome : (viewBaseline acc.state).isSome = true) :
    processOcc relativize p dbc line filePath ln now acc (i, mstr) = acc := by
  simp [processOcc, hnew, hsome]

/-- C9: classification uses the baseline reference loaded in `start()`.  With
no baseline at start, every occurrence stays classified new for the whole
session — admissions are limited only by debounce — even though admitted
matches are recorded into the tracker's store; those entries take effect only
after a restart, which reloads the (now non-null) store and classifies the
same occurrence as known.  With a baseline present at start, the watcher's
reference aliases the shared store, so an admitted new occurrence is recorded
into it and an identical later occurrence in the same session is classified
known. -/
theorem c9_theorem :
    (∀ (engine : RegexEngine) (relativize : String → String) (p : Pattern)
      (filePath content : String) (i : Nat) (mstr : String)
      (now1 now2 now3 : Nat),
      jsSplitNl content = [content] →
      engine.execAll p.pattern content = [(i, mstr)] →
      processFileContent engine relativize ⟨[p], none, .off⟩ [] filePath content
          (startSession none) now1
        = ([mkMatchInfo p true content (relativize filePath) 1 i mstr now1],
           ⟨some ⟨now1, [createBaselineEntry (relativize filePath) 1 p.name
              (jsTrim content)]⟩, false, [(matchKeyStr filePath 1 p.name, now1)]⟩)
      ∧ processFileContent engine relativize ⟨[p], none, .off⟩ [] filePath content
          ⟨some ⟨now1, [createBaselineEntry (relativize filePath) 1 p.name
             (jsTrim content)]⟩, false, [(matchKeyStr filePath 1 p.name, now1)]⟩ now2
        = ([mkMatchInfo p true content (relativize filePath) 1 i mstr now2],
           ⟨some ⟨now1, [createBaselineEntry (relativize filePath) 1 p.name
              (jsTrim content)]⟩, false, [(matchKeyStr filePath 1 p.name, now2)]⟩)
      ∧ processFileContent engine relativize ⟨[p], none, .off⟩ [] filePath content
          (startSession (some ⟨now1, [createBaselineEntry (relativize filePath) 1
             p.name (jsTrim content)]⟩)) now3
        = ([], ⟨some ⟨now1, [createBaselineEntry (relativize filePath) 1 p.name
                 (jsTrim content)]⟩, true, []⟩))
    ∧ (∀ (engine : RegexEngine) (relativize : String → String) (p : Pattern)
      (filePath content : String) (i : Nat) (mstr : String) (now1 now2 : Nat)
      (b : Baseline),
      jsSplitNl content = [content] →
      engine.execAll p.pattern content = [(i, mstr)] →
      entryKeyStr (createBaselineEntry (relativize filePath) 1 p.name
          (jsTrim content)) ∉ b.entries.map entryKeyStr →
      processFileContent engine relativize ⟨[p], none, .off⟩ [] filePath content
          (startSession (some b)) now1
        = ([mkMatchInfo p true content (relativize filePath) 1 i mstr now1],
           ⟨some ⟨now1, b.entries ++ [createBaselineEntry (relativize filePath) 1
              p.name (jsTrim content)]⟩, true,
            [(matchKeyStr filePath 1 p.name, now1)]⟩)
      ∧ processFileContent engine relativize ⟨[p], none, .off⟩ [] filePath content
          ⟨some ⟨now1, b.entries ++ [createBaselineEntry (relativize filePath) 1
             p.name (jsTrim content)]⟩, true,
           [(matchKeyStr filePath 1 p.name, now1)]⟩ now2
        = ([], ⟨some ⟨now1, b.entries ++ [createBaselineEntry (relativize filePath)
                 1 p.name (jsTrim content)]⟩, true,
                [(matchKeyStr filePath 1 p.name, now1)]⟩)) := by
  constructor
  · intro engine relativize p filePath content i mstr now1 now2 now3 hsplit hocc
    refine ⟨?_, ?_, ?_⟩
    · rw [processFileContent_single engine relativize _ filePath content _ now1
        hsplit]
      rw [checkPatterns_single_rule engine relativize p none .off content
        filePath 1 _ now1 i mstr hocc]
      rw [processOcc_fresh_pass relativize p .off content filePath 1 now1
        ⟨[], startSession none⟩ i mstr (by rfl) (by simp [debounceAdmits, debounceWindowOf])]
      simp [startSession, updateBaseline, createBaseline, mapInsert]
    · rw [processFileContent_single engine relativize _ filePath content _ now2
        hsplit]
      rw [checkPatterns_single_rule engine relativize p none .off content
        filePath 1 _ now2 i mstr hocc]
      rw [processOcc_fresh_pass relativize p .off content filePath 1 now2
        _ i mstr (by simp [viewBaseline, classifyIsNew])
        (by simp [debounceAdmits, debounceWindowOf])]
      rw [updateBaseline_dup_single _ _ now2 (by simp)]
      simp [mapInsert]
    · rw [processFileContent_single engine relativize _ filePath content _ now3
        hsplit]
      rw [checkPatterns_single_rule engine relativize p none .off content
        filePath 1 _ now3 i mstr hocc]
      rw [processOcc_known_skip relativize p .off content filePath 1 now3
        _ i mstr ?_ ?_]
      · simp [startSession]
      · simp only [startSession, Option.isSome_some, viewBaseline, if_true,
          classifyIsNew]
        exact isNewPattern_false_of_mem (relativize filePath) 1 p.name
          (jsTrim content) _ (by simp [createBaselineEntry])
      · simp [startSession, viewBaseline]
  · intro engine relativize p filePath content i mstr now1 now2 b hsplit hocc hk
    refine ⟨?_, ?_⟩
    · rw [processFileContent_single engine relativize _ filePath content _ now1
        hsplit]
      rw [checkPatterns_single_rule engine relativize p none .off content
        filePath 1 _ now1 i mstr hocc]
      rw [processOcc_fresh_pass relativize p .off content filePath 1 now1
        ⟨[], startSession (some b)⟩ i mstr ?_ (by simp [debounceAdmits, debounceWindowOf])]
      · rw [show (⟨[], startSession (some b)⟩ : CheckAcc).state.store = some b
            from rfl]
        rw [updateBaseline_fresh_single b _ now1 hk]
        simp [startSession, mapInsert]
      · simp only [startSession, Option.isSome_some, viewBaseline, if_true,
          classifyIsNew]
        exact isNewPattern_true_of_fresh_key (relativize filePath) 1 p.name
          (jsTrim content) b hk
    · rw [processFileContent_single engine relativize _ filePath content _ now2
        hsplit]
      rw [checkPatterns_single_rule engine relativize p none .off content
        filePath 1 _ now2 i mstr hocc]
      rw [processOcc_known_skip relativize p .off content filePath 1 now2
        _ i mstr ?_ (by simp [viewBaseline])]
      simp only [viewBaseline, if_true, classifyIsNew]
      exact isNewPattern_false_of_mem (relativize filePath) 1 p.name
        (jsTrim content) _ (by simp [createBaselineEntry])

/-- C9 witness: with the literal engine and the `todo` rule on a one-line
file `TODO`, a no-baseline session alerts on both passes and only a restarted
session suppresses the occurrence, while a session started with a fresh-key
baseline records the entry and suppresses the identical second pass. -/
theorem c9_witness :
    (processFileContent literalEngine id ⟨[patTodo], none, .off⟩ [] "w.ts"
        "TODO" (startSession none) 10).fst.length = 1
    ∧ (processFileContent literalEngine id ⟨[patTodo], none, .off⟩ [] "w.ts"
        "TODO" ⟨some ⟨10, [createBaselineEntry (id "w.ts") 1 patTodo.name
           (jsTrim "TODO")]⟩, false, [(matchKeyStr "w.ts" 1 patTodo.name, 10)]⟩
        20).fst.length = 1
    ∧ (processFileContent literalEngine id ⟨[patTodo], none, .off⟩ [] "w.ts"
        "TODO" (startSession (some ⟨10, [createBaselineEntry (id "w.ts") 1
           patTodo.name (jsTrim "TODO")]⟩)) 30).fst = []
    ∧ (processFileContent literalEngine id ⟨[patTodo], none, .off⟩ [] "w.ts"
        "TODO" (startSession (some ⟨5, []⟩)) 10).fst.length = 1
    ∧ (processFileContent literalEngine id ⟨[patTodo], none, .off⟩ [] "w.ts"
        "TODO" ⟨some ⟨10, ([] : List BaselineEntry) ++ [createBaselineEntry
           (id "w.ts") 1 patTodo.name (jsTrim "TODO")]⟩, true,
         [(matchKeyStr "w.ts" 1 patTodo.name, 10)]⟩ 20).fst = [] := by
  have hA := c9_theorem.1 literalEngine id patTodo "w.ts" "TODO" 0 "TODO"
    10 20 30 (by decide) (by decide)
  have hB := c9_theorem.2 literalEngine id patTodo "w.ts" "TODO" 0 "TODO"
    10 20 ⟨5, []⟩ (by decide) (by decide) (by decide)
  refine ⟨?_, ?_, ?_, ?_, ?_⟩
  · rw [hA.1]; rfl
  · rw [hA.2.1]; rfl
  · rw [hA.2.2]
  · rw [hB.1]; rfl
  · rw [hB.2]

end Watchdog
